import Mathlib

/-!
# meow-sql: SQLite DDL object model and its text rendering

Shallow embedding of `src/utils/sql_parser/sqlite/sqlite_types.cpp`.

* `std::string` is `String`; `std::stringstream ss; ss << x; ...; return ss.str()`
  is a chain of `++` on an accumulator that starts empty.
* A range-`for` loop over a `std::vector` is a `List.foldl` whose state holds
  every variable the loop body writes (the stream and, where present, the
  `first` flag).
* A class hierarchy with a virtual `toString` is a sum type with one
  constructor per class that overrides it, and a dispatching function.
* A `shared_ptr` that is tested before use is an `Option`.
-/

namespace meow.utils.sql_parser

/-! ## Enumerations and value types (declared in `sqlite_types.h`) -/

/-- Conflict-resolution disposition; the enumerators are the `case` labels of
`conflictToString`. -/
inductive SQLiteDoOnConflict
  | None | Rollback | Abort | Fail | Ignore | Replace
  deriving DecidableEq

/-- Trigger of a referential action; the enumerators are the `case` labels of the
first `switch` of `SQLiteForeignKeyAction::toString`. -/
inductive SQLiteAction
  | OnDelete | OnUpdate | Match
  deriving DecidableEq

/-- Disposition of a referential action; the enumerators are the `case` labels of
the second `switch` of `SQLiteForeignKeyAction::toString`. -/
inductive SQLiteDoOnAction
  | NoAction | SetNull | SetDefault | Cascade | Restrict
  deriving DecidableEq

/-- Modelled from the spec: the enumeration `SQLiteLiteralValueType` is declared
in `sqlite_types.h`, which is not among the sources; the code only names its
enumerator `String`. The other tags are those of the spec's literal value
("tagged union of Null, Integer, Real, String, Blob,
CurrentTime/CurrentDate/CurrentTimestamp"). -/
inductive SQLiteLiteralValueType
  | Null | Integer | Real | String | Blob
  | CurrentTime | CurrentDate | CurrentTimestamp
  deriving DecidableEq

/-- The literal of a DEFAULT constraint: the two members
`SQLiteDefaultColumnConstraint::toString` reads, `type` and `value`. -/
structure SQLiteLiteralValue where
  type : SQLiteLiteralValueType
  value : String
  deriving DecidableEq

/-- A referential action: the two members `SQLiteForeignKeyAction::toString`
reads. -/
structure SQLiteForeignKeyAction where
  action : SQLiteAction
  doOnAction : SQLiteDoOnAction
  deriving DecidableEq

/-- The foreign-key clause: the three members `SQLiteForeignData::toString`
reads. -/
structure SQLiteForeignData where
  foreignTableName : String
  foreignColumnNames : List String
  actions : List SQLiteForeignKeyAction
  deriving DecidableEq

/-- The nested `SQLiteColumnConstraint::Type`; the enumerators are the `case`
labels of `SQLiteColumnConstraint::toString`. -/
inductive SQLiteColumnConstraint.Type
  | PrimaryKey | NotNull | Unique | Check | Default | Collate | ForeignKey
  deriving DecidableEq

/-- The base class `SQLiteColumnConstraint`: the three data members its
constructor initialises. -/
structure SQLiteColumnConstraint where
  _type : SQLiteColumnConstraint.Type
  _isAutoincrement : Bool
  _onConflict : SQLiteDoOnConflict
  deriving DecidableEq

/-- The constructor `SQLiteColumnConstraint::SQLiteColumnConstraint(Type type)`. -/
def SQLiteColumnConstraint.new (type : SQLiteColumnConstraint.Type) :
    SQLiteColumnConstraint :=
  { _type := type, _isAutoincrement := false, _onConflict := SQLiteDoOnConflict.None }

/-- The class `SQLiteDefaultColumnConstraint : SQLiteColumnConstraint`. -/
structure SQLiteDefaultColumnConstraint extends SQLiteColumnConstraint where
  defaultValue : SQLiteLiteralValue
  deriving DecidableEq

/-- The class `SQLiteForeignKeyColumnConstraint : SQLiteColumnConstraint`; the
pointer `foreignData` is tested before it is dereferenced, so it may be null. -/
structure SQLiteForeignKeyColumnConstraint extends SQLiteColumnConstraint where
  foreignData : Option SQLiteForeignData
  deriving DecidableEq

/-- What a `SQLiteColumnConstraintPtr` may point to: an object of the base class
or of one of the two classes that override `toString`. -/
inductive SQLiteColumnConstraintPtr
  | base (c : SQLiteColumnConstraint)
  | default (c : SQLiteDefaultColumnConstraint)
  | foreignKey (c : SQLiteForeignKeyColumnConstraint)
  deriving DecidableEq

/-- The class `SQLiteColumn`: the three members `SQLiteColumn::toString` reads. -/
structure SQLiteColumn where
  _name : String
  _type : String
  _constraints : List SQLiteColumnConstraintPtr
  deriving DecidableEq

/-- The class `SQLiteTableForeignKeyConstraint`. -/
structure SQLiteTableForeignKeyConstraint where
  columnNames : List String
  foreignData : Option SQLiteForeignData
  deriving DecidableEq

/-- The class `SQLiteTablePrimaryKeyConstraint`. -/
structure SQLiteTablePrimaryKeyConstraint where
  indexedColumnNames : List String
  conflict : SQLiteDoOnConflict
  deriving DecidableEq

/-- The class `SQLiteTableUniqueConstraint`. -/
structure SQLiteTableUniqueConstraint where
  indexedColumnNames : List String
  conflict : SQLiteDoOnConflict
  deriving DecidableEq

/-- What a table-constraint pointer may point to: one of the three classes of
`sqlite_types.cpp` that derive from `SQLiteTableConstraint` and define
`toString`. -/
inductive SQLiteTableConstraintPtr
  | foreignKey (c : SQLiteTableForeignKeyConstraint)
  | primaryKey (c : SQLiteTablePrimaryKeyConstraint)
  | unique (c : SQLiteTableUniqueConstraint)
  deriving DecidableEq

/-- The class `SQLiteTable`: the five members `SQLiteTable::toString` reads. -/
structure SQLiteTable where
  _temp : Bool
  _name : String
  _columns : List SQLiteColumn
  _constraints : List SQLiteTableConstraintPtr
  _withoutRowId : Bool
  deriving DecidableEq

/-! ## The rendering functions -/

/-- The function `std::string conflictToString(const SQLiteDoOnConflict conflict)`;
the `return {}` after the `switch` is unreachable for the six enumerators. -/
def conflictToString (conflict : SQLiteDoOnConflict) : String :=
  match conflict with
  | SQLiteDoOnConflict.None => ""
  | SQLiteDoOnConflict.Rollback => "ROLLBACK"
  | SQLiteDoOnConflict.Abort => "ABORT"
  | SQLiteDoOnConflict.Fail => "FAIL"
  | SQLiteDoOnConflict.Ignore => "IGNORE"
  | SQLiteDoOnConflict.Replace => "REPLACE"

/-- The method `SQLiteForeignKeyAction::toString`: the trigger keyword, then, under the `if`
on the trigger, the disposition keyword. -/
def SQLiteForeignKeyAction.toString (a : SQLiteForeignKeyAction) : String :=
  let ss := ""
  let ss :=
    match a.action with
    | SQLiteAction.OnDelete => ss ++ " ON DELETE"
    | SQLiteAction.OnUpdate => ss ++ " ON UPDATE"
    | SQLiteAction.Match => ss ++ " MATCH"
  if a.action = SQLiteAction.OnDelete ∨ a.action = SQLiteAction.OnUpdate then
    match a.doOnAction with
    | SQLiteDoOnAction.NoAction => ss ++ " NO ACTION"
    | SQLiteDoOnAction.SetNull => ss ++ " SET NULL"
    | SQLiteDoOnAction.SetDefault => ss ++ " SET DEFAULT"
    | SQLiteDoOnAction.Cascade => ss ++ " CASCADE"
    | SQLiteDoOnAction.Restrict => ss ++ " RESTRICT"
  else ss

/-- The method `SQLiteColumnConstraint::toString` (the base-class body). -/
def SQLiteColumnConstraint.toString (c : SQLiteColumnConstraint) : String :=
  let ss := ""
  let ss :=
    match c._type with
    | SQLiteColumnConstraint.Type.PrimaryKey =>
        let ss := ss ++ " PRIMARY KEY"
        if c._isAutoincrement then ss ++ " AUTOINCREMENT" else ss
    | SQLiteColumnConstraint.Type.NotNull => ss ++ " NOT NULL"
    | SQLiteColumnConstraint.Type.Unique => ss ++ " UNIQUE"
    | SQLiteColumnConstraint.Type.Check => ss ++ " CHECK"
    | SQLiteColumnConstraint.Type.Default => ss ++ " DEFAULT"
    | SQLiteColumnConstraint.Type.Collate => ss ++ " COLLATE"
    | SQLiteColumnConstraint.Type.ForeignKey => ss ++ " FOREIGN KEY"
  let ss :=
    if c._onConflict ≠ SQLiteDoOnConflict.None then
      ss ++ " ON CONFLICT " ++ conflictToString c._onConflict
    else ss
  ss

/-- The method `SQLiteDefaultColumnConstraint::toString`. -/
def SQLiteDefaultColumnConstraint.toString (c : SQLiteDefaultColumnConstraint) : String :=
  let ss := ""
  let ss := ss ++ SQLiteColumnConstraint.toString c.toSQLiteColumnConstraint
  let ss := ss ++ " "
  let ss := if c.defaultValue.type = SQLiteLiteralValueType.String then ss ++ "'" else ss
  let ss := ss ++ c.defaultValue.value
  let ss := if c.defaultValue.type = SQLiteLiteralValueType.String then ss ++ "'" else ss
  ss

/-- One pass of the column loop of `SQLiteForeignData::toString`. The state is
`(ss, first)`; the `else` branch assigns `first = true`, as the source does. -/
def SQLiteForeignData.colStep (st : String × Bool) (col : String) : String × Bool :=
  let ss := st.1
  let first := st.2
  let st :=
    if !first then (ss ++ ", ", first)
    else (ss, true)
  (st.1 ++ col, st.2)

/-- The method `SQLiteForeignData::toString`. -/
def SQLiteForeignData.toString (fd : SQLiteForeignData) : String :=
  let ss := ""
  let ss := ss ++ "REFERENCES " ++ fd.foreignTableName
  let ss := ss ++ " ("
  let first := true
  let st := fd.foreignColumnNames.foldl SQLiteForeignData.colStep (ss, first)
  let ss := st.1
  let ss := ss ++ ") "
  let ss := fd.actions.foldl (fun ss action => ss ++ action.toString) ss
  ss

/-- The method `SQLiteForeignKeyColumnConstraint::toString`. -/
def SQLiteForeignKeyColumnConstraint.toString (c : SQLiteForeignKeyColumnConstraint) :
    String :=
  let ss := ""
  let ss := ss ++ SQLiteColumnConstraint.toString c.toSQLiteColumnConstraint
  let ss :=
    match c.foreignData with
    | some fd => ss ++ fd.toString
    | none => ss
  ss

/-- The virtual call `c->toString()` on a `SQLiteColumnConstraintPtr`. -/
def SQLiteColumnConstraintPtr.toString : SQLiteColumnConstraintPtr → String
  | SQLiteColumnConstraintPtr.base c => c.toString
  | SQLiteColumnConstraintPtr.default c => c.toString
  | SQLiteColumnConstraintPtr.foreignKey c => c.toString

/-- The method `SQLiteColumn::toString`. -/
def SQLiteColumn.toString (col : SQLiteColumn) : String :=
  let ss := ""
  let ss := ss ++ "name: " ++ col._name
  let ss := ss ++ " type: " ++ col._type
  let ss := ss ++ " constraints:"
  let ss := col._constraints.foldl (fun ss c => ss ++ " " ++ c.toString) ss
  ss

/-- One pass of the column-name loop shared, text for text, by the three
table-level renderers. The state is `(ss, first)`; the `else` branch assigns
`first = false`. -/
def joinStep (st : String × Bool) (col : String) : String × Bool :=
  let ss := st.1
  let first := st.2
  let st :=
    if !first then (ss ++ ", ", first)
    else (ss, false)
  (st.1 ++ col, st.2)

/-- The method `SQLiteTableForeignKeyConstraint::toString`. -/
def SQLiteTableForeignKeyConstraint.toString (c : SQLiteTableForeignKeyConstraint) :
    String :=
  let ss := ""
  let ss := ss ++ " FOREIGN KEY ("
  let first := true
  let st := c.columnNames.foldl joinStep (ss, first)
  let ss := st.1
  let ss := ss ++ ") "
  let ss :=
    match c.foreignData with
    | some fd => ss ++ fd.toString
    | none => ss
  ss

/-- The method `SQLiteTablePrimaryKeyConstraint::toString`. -/
def SQLiteTablePrimaryKeyConstraint.toString (c : SQLiteTablePrimaryKeyConstraint) :
    String :=
  let ss := ""
  let ss := ss ++ " PRIMARY KEY ("
  let first := true
  let st := c.indexedColumnNames.foldl joinStep (ss, first)
  let ss := st.1
  let ss := ss ++ ") "
  let ss :=
    if c.conflict ≠ SQLiteDoOnConflict.None then
      ss ++ " ON CONFLICT " ++ conflictToString c.conflict
    else ss
  ss

/-- The method `SQLiteTableUniqueConstraint::toString`. -/
def SQLiteTableUniqueConstraint.toString (c : SQLiteTableUniqueConstraint) : String :=
  let ss := ""
  let ss := ss ++ " UNIQUE ("
  let first := true
  let st := c.indexedColumnNames.foldl joinStep (ss, first)
  let ss := st.1
  let ss := ss ++ ") "
  let ss :=
    if c.conflict ≠ SQLiteDoOnConflict.None then
      ss ++ " ON CONFLICT " ++ conflictToString c.conflict
    else ss
  ss

/-- The virtual call `c->toString()` on a table-constraint pointer. -/
def SQLiteTableConstraintPtr.toString : SQLiteTableConstraintPtr → String
  | SQLiteTableConstraintPtr.foreignKey c => c.toString
  | SQLiteTableConstraintPtr.primaryKey c => c.toString
  | SQLiteTableConstraintPtr.unique c => c.toString

/-- The method `SQLiteTable::toString`. -/
def SQLiteTable.toString (t : SQLiteTable) : String :=
  let ss := ""
  let ss := ss ++ "TABLE\n"
  let ss := if t._temp then ss ++ "TEMP:\n" else ss
  let ss := ss ++ "\tname:" ++ t._name ++ "\n"
  let ss := ss ++ "\tCOLUMNS:\n"
  let ss := t._columns.foldl (fun ss column => ss ++ "\t\t" ++ column.toString ++ "\n") ss
  let ss := ss ++ "\tCONSTRAINTS:\n"
  let ss := t._constraints.foldl (fun ss c => ss ++ "\t\t" ++ c.toString ++ "\n") ss
  let ss := if t._withoutRowId then ss ++ "WITHOUT ROWID\n" else ss
  ss

/-! ## Vocabulary of the statements -/

/-- The text `s` has `pat` as a contiguous piece. -/
def Contains (s pat : String) : Prop := pat.data <:+: s.data

instance (s pat : String) : Decidable (Contains s pat) :=
  inferInstanceAs (Decidable (pat.data <:+: s.data))

/-- The text `s` begins with `pre`. -/
def StartsWith (s pre : String) : Prop := pre.data <+: s.data

instance (s pre : String) : Decidable (StartsWith s pre) :=
  inferInstanceAs (Decidable (pre.data <+: s.data))

/-- The text `s` ends with `suf`. -/
def EndsWith (s suf : String) : Prop := suf.data <:+ s.data

instance (s suf : String) : Decidable (EndsWith s suf) :=
  inferInstanceAs (Decidable (suf.data <:+ s.data))

/-- The example model of the specification: table `users` with the columns
`id`, `name` and `parent_id`. -/
def usersTable : SQLiteTable :=
  { _temp := false
    _name := "users"
    _columns :=
      [ { _name := "id", _type := "INTEGER",
          _constraints := [SQLiteColumnConstraintPtr.base
            { _type := SQLiteColumnConstraint.Type.PrimaryKey, _isAutoincrement := true,
              _onConflict := SQLiteDoOnConflict.None }] },
        { _name := "name", _type := "TEXT",
          _constraints := [SQLiteColumnConstraintPtr.base
            (SQLiteColumnConstraint.new SQLiteColumnConstraint.Type.NotNull)] },
        { _name := "parent_id", _type := "INTEGER",
          _constraints := [SQLiteColumnConstraintPtr.foreignKey
            { toSQLiteColumnConstraint :=
                SQLiteColumnConstraint.new SQLiteColumnConstraint.Type.ForeignKey,
              foreignData := some
                { foreignTableName := "users", foreignColumnNames := ["id"],
                  actions := [{ action := SQLiteAction.OnDelete,
                                doOnAction := SQLiteDoOnAction.Cascade }] } }] } ]
    _constraints := []
    _withoutRowId := false }

/-- The single-quote character that `SQLiteDefaultColumnConstraint::toString`
writes around a `String` literal. -/
def singleQuote : Char := Char.ofNat 39

/-- Modelled from the spec: the tokenizer and the parser are not among the
sources. Of their contract (the parser "consumes the full token sequence for one
`CREATE [TEMP|TEMPORARY] TABLE ...` statement and produces a Table Definition,
or fails with a `ParseError`"; the tokenizer recognises keywords
case-insensitively) this is the one consequence used here: after leading white
space, the text of an accepted statement starts with the keyword CREATE. -/
def beginsWithCreate (s : String) : Bool :=
  ((s.data.dropWhile Char.isWhitespace).take 6).map Char.toUpper = "CREATE".data

/-- Modelled from the spec: the parser is not among the sources. A parser in the
sense of the spec is any function from text to a table definition or a failure
that succeeds only on a text whose first keyword is CREATE. -/
structure SpecParser where
  parse : String → Option SQLiteTable
  create_first : ∀ s t, parse s = some t → beginsWithCreate s = true

/-- A parser that honours the contract of `SpecParser` and looks at nothing but
the first keyword; it shows that the contract can be met. -/
def headOnlyParser : SpecParser where
  parse s := if beginsWithCreate s then some usersTable else none
  create_first := by
    intro s t h
    by_cases hb : beginsWithCreate s = true
    · exact hb
    · have h2 : (if beginsWithCreate s = true then some usersTable else none) = some t := h
      rw [if_neg hb] at h2
      exact Option.noConfusion h2

/-! ## Loops as closed forms -/

theorem foldl_append_start (l : List String) (acc : String) :
    l.foldl (fun r s => r ++ s) acc = acc ++ String.join l := by
  induction l generalizing acc with
  | nil => simp [String.join]
  | cons x xs ih =>
    have h : String.join (x :: xs) = x ++ String.join xs := by
      have h2 := ih ("" ++ x)
      rw [String.empty_append] at h2
      exact h2
    rw [List.foldl_cons, ih, h, String.append_assoc]

theorem join_cons (x : String) (xs : List String) :
    String.join (x :: xs) = x ++ String.join xs := by
  have h := foldl_append_start xs ("" ++ x)
  simpa [String.join] using h

theorem join_append_singleton (xs : List String) (x : String) :
    String.join (xs ++ [x]) = String.join xs ++ x := by
  induction xs with
  | nil => simp [String.join]
  | cons y ys ih => rw [List.cons_append, join_cons, join_cons, ih, String.append_assoc]

/-- A loop `for (x : l) ss << f(x);` appends the renderings in list order. -/
theorem foldl_shift {α : Type} (f : α → String) (l : List α) (ss : String) :
    l.foldl (fun ss a => ss ++ f a) ss = ss ++ String.join (l.map f) := by
  induction l generalizing ss with
  | nil => simp [String.join]
  | cons x xs ih =>
    rw [List.foldl_cons, ih, List.map_cons, join_cons, String.append_assoc]

/-- The column loop of `SQLiteForeignData::toString` never leaves `first = true`,
so it never writes the separator. -/
theorem colStep_foldl (cols : List String) (ss : String) :
    cols.foldl SQLiteForeignData.colStep (ss, true) = (ss ++ String.join cols, true) := by
  induction cols generalizing ss with
  | nil => simp [String.join]
  | cons c cs ih =>
    rw [List.foldl_cons]
    have h : SQLiteForeignData.colStep (ss, true) c = (ss ++ c, true) := rfl
    rw [h, ih, join_cons, String.append_assoc]

/-- Closed form of `SQLiteForeignData::toString`. -/
theorem foreignData_toString_eq (fd : SQLiteForeignData) :
    fd.toString =
      "REFERENCES " ++ fd.foreignTableName ++ " (" ++ String.join fd.foreignColumnNames
        ++ ") " ++ String.join (fd.actions.map SQLiteForeignKeyAction.toString) := by
  unfold SQLiteForeignData.toString
  simp only [colStep_foldl, foldl_shift, String.empty_append]

theorem intercalate_go_append (a b sep : String) (cs : List String) :
    String.intercalate.go (a ++ b) sep cs = a ++ String.intercalate.go b sep cs := by
  induction cs generalizing b with
  | nil => rfl
  | cons c cs ih =>
    have h : a ++ b ++ sep ++ c = a ++ (b ++ sep ++ c) := by
      simp only [String.append_assoc]
    show String.intercalate.go (a ++ b ++ sep ++ c) sep cs
      = a ++ String.intercalate.go (b ++ sep ++ c) sep cs
    rw [h, ih]

/-- Once `first` is false, the shared column-name loop writes `, ` before every
name. -/
theorem joinStep_foldl_false (cols : List String) (ss : String) :
    cols.foldl joinStep (ss, false) = (String.intercalate.go ss ", " cols, false) := by
  induction cols generalizing ss with
  | nil => rfl
  | cons c cs ih =>
    rw [List.foldl_cons]
    have h : joinStep (ss, false) c = (ss ++ ", " ++ c, false) := rfl
    rw [h, ih]
    rfl

/-- The shared column-name loop of the three table-level renderers writes the
names in list order with `, ` between consecutive names. -/
theorem joinStep_foldl (cols : List String) (ss : String) :
    (cols.foldl joinStep (ss, true)).1 = ss ++ ", ".intercalate cols := by
  cases cols with
  | nil => simp [String.intercalate]
  | cons c cs =>
    rw [List.foldl_cons]
    have h : joinStep (ss, true) c = (ss ++ c, false) := rfl
    rw [h, joinStep_foldl_false, intercalate_go_append]
    rfl

/-- Closed form of `SQLiteTablePrimaryKeyConstraint::toString`. -/
theorem tablePrimaryKey_toString_eq (c : SQLiteTablePrimaryKeyConstraint) :
    c.toString =
      " PRIMARY KEY (" ++ ", ".intercalate c.indexedColumnNames ++ ") "
        ++ (if c.conflict ≠ SQLiteDoOnConflict.None then
              " ON CONFLICT " ++ conflictToString c.conflict
            else "") := by
  unfold SQLiteTablePrimaryKeyConstraint.toString
  simp only [joinStep_foldl, String.empty_append]
  split <;> simp only [String.append_assoc, String.append_empty]

/-- Closed form of `SQLiteTableUniqueConstraint::toString`. -/
theorem tableUnique_toString_eq (c : SQLiteTableUniqueConstraint) :
    c.toString =
      " UNIQUE (" ++ ", ".intercalate c.indexedColumnNames ++ ") "
        ++ (if c.conflict ≠ SQLiteDoOnConflict.None then
              " ON CONFLICT " ++ conflictToString c.conflict
            else "") := by
  unfold SQLiteTableUniqueConstraint.toString
  simp only [joinStep_foldl, String.empty_append]
  split <;> simp only [String.append_assoc, String.append_empty]

/-- Closed form of `SQLiteTable::toString`. -/
theorem table_toString_eq (t : SQLiteTable) :
    t.toString =
      "TABLE\n" ++ (if t._temp then "TEMP:\n" else "") ++ "\tname:" ++ t._name ++ "\n"
        ++ "\tCOLUMNS:\n"
        ++ String.join (t._columns.map fun c => "\t\t" ++ c.toString ++ "\n")
        ++ "\tCONSTRAINTS:\n"
        ++ String.join (t._constraints.map fun c => "\t\t" ++ c.toString ++ "\n")
        ++ (if t._withoutRowId then "WITHOUT ROWID\n" else "") := by
  unfold SQLiteTable.toString
  simp only [String.append_assoc, foldl_shift, String.empty_append]
  cases t._temp <;> cases t._withoutRowId <;>
    simp only [Bool.false_eq_true, if_false, if_true, String.append_assoc,
      String.append_empty, String.empty_append]

/-! ## The foreign-key clause -/

/-- C1, evaluated on the clause that references table `t`, columns `[a, b]`, with
no action: the rendered text is `REFERENCES t (ab) `, the two names written one
after the other with no `, ` between them, so it does not contain
`REFERENCES t (a, b)`. -/
theorem foreignData_two_columns_run_together :
    SQLiteForeignData.toString
        { foreignTableName := "t", foreignColumnNames := ["a", "b"], actions := [] }
      = "REFERENCES t (ab) " ∧
    ¬ Contains
        (SQLiteForeignData.toString
          { foreignTableName := "t", foreignColumnNames := ["a", "b"], actions := [] })
        "REFERENCES t (a, b)" := by
  decide

/-- C2 fails as stated: the clause that references table `t` with an empty column
sequence and no action renders as `REFERENCES t () `, which contains both `(`
and `)`. -/
theorem foreignData_empty_columns_keeps_parens :
    SQLiteForeignData.toString
        { foreignTableName := "t", foreignColumnNames := [], actions := [] }
      = "REFERENCES t () " ∧
    Contains
        (SQLiteForeignData.toString
          { foreignTableName := "t", foreignColumnNames := [], actions := [] }) "(" ∧
    Contains
        (SQLiteForeignData.toString
          { foreignTableName := "t", foreignColumnNames := [], actions := [] }) ")" := by
  decide

/-- C2 as amended: when the referenced-column sequence is empty the parentheses
are kept and left empty; the text is `REFERENCES <table> () ` followed only by
the renderings of the actions, in stored order. -/
theorem foreignData_empty_columns (fd : SQLiteForeignData)
    (h : fd.foreignColumnNames = []) :
    fd.toString =
      "REFERENCES " ++ fd.foreignTableName ++ " () "
        ++ String.join (fd.actions.map SQLiteForeignKeyAction.toString) := by
  rw [foreignData_toString_eq, h]
  have e : String.join [] = "" := rfl
  rw [e, String.append_empty]
  simp only [String.append_assoc]
  rfl

theorem foreignData_empty_columns_witness :
    SQLiteForeignData.toString
        { foreignTableName := "t", foreignColumnNames := [],
          actions := [{ action := SQLiteAction.OnDelete,
                        doOnAction := SQLiteDoOnAction.Cascade }] }
      = "REFERENCES " ++ "t" ++ " () "
        ++ String.join
            ([{ action := SQLiteAction.OnDelete,
                doOnAction := SQLiteDoOnAction.Cascade }].map
              SQLiteForeignKeyAction.toString) :=
  foreignData_empty_columns
    { foreignTableName := "t", foreignColumnNames := [],
      actions := [{ action := SQLiteAction.OnDelete,
                    doOnAction := SQLiteDoOnAction.Cascade }] } rfl

/-! ## The example model and the table wrapper -/

set_option maxRecDepth 100000 in
/-- C3 fails as stated: the text rendered for the example model does not contain
`REFERENCES users (id) ON DELETE CASCADE`. -/
theorem usersTable_lacks_single_spaced_clause :
    ¬ (Contains usersTable.toString "PRIMARY KEY AUTOINCREMENT" ∧
       Contains usersTable.toString "NOT NULL" ∧
       Contains usersTable.toString "REFERENCES users (id) ON DELETE CASCADE") := by
  decide

set_option maxRecDepth 100000 in
/-- The text rendered for the example model, character for character. -/
theorem usersTable_dump :
    usersTable.toString =
      "TABLE\n\tname:users\n\tCOLUMNS:\n"
        ++ "\t\tname: id type: INTEGER constraints:  PRIMARY KEY AUTOINCREMENT\n"
        ++ "\t\tname: name type: TEXT constraints:  NOT NULL\n"
        ++ "\t\tname: parent_id type: INTEGER constraints:"
        ++ "  FOREIGN KEYREFERENCES users (id)  ON DELETE CASCADE\n"
        ++ "\tCONSTRAINTS:\n" := by
  decide

set_option maxRecDepth 100000 in
/-- C3 as amended: the text rendered for the example model contains
`PRIMARY KEY AUTOINCREMENT`, `NOT NULL`, and
`REFERENCES users (id)  ON DELETE CASCADE` with two spaces between `)` and `ON`. -/
theorem usersTable_toString :
    Contains usersTable.toString "PRIMARY KEY AUTOINCREMENT" ∧
    Contains usersTable.toString "NOT NULL" ∧
    Contains usersTable.toString "REFERENCES users (id)  ON DELETE CASCADE" := by
  decide

set_option maxRecDepth 100000 in
/-- C4 fails as stated: the text rendered for the table `users`, whose two flags
are clear, neither begins with `CREATE TABLE users (` nor ends with `)`. -/
theorem usersTable_not_create_table :
    ¬ StartsWith usersTable.toString "CREATE TABLE users (" ∧
    ¬ EndsWith usersTable.toString ")" := by
  decide

/-- C4 as amended: the text begins with `TABLE\n`, then `TEMP:\n` when the
temporary flag is set, then `\tname:<name>\n\tCOLUMNS:\n`; it ends with the
`\tCONSTRAINTS:\n` section (one line per table constraint), followed by
`WITHOUT ROWID\n` when the without-row-id flag is set and by nothing when it is
clear. -/
theorem table_toString_wrapper (t : SQLiteTable) :
    StartsWith t.toString
      ((if t._temp then "TABLE\nTEMP:\n\tname:" else "TABLE\n\tname:")
        ++ t._name ++ "\n\tCOLUMNS:\n") ∧
    EndsWith t.toString
      ("\tCONSTRAINTS:\n"
        ++ String.join (t._constraints.map fun c => "\t\t" ++ c.toString ++ "\n")
        ++ (if t._withoutRowId then "WITHOUT ROWID\n" else "")) := by
  rw [table_toString_eq]
  constructor
  · unfold StartsWith
    cases t._temp
    · refine ⟨(String.join (t._columns.map fun c => "\t\t" ++ c.toString ++ "\n")
        ++ "\tCONSTRAINTS:\n"
        ++ String.join (t._constraints.map fun c => "\t\t" ++ c.toString ++ "\n")
        ++ (if t._withoutRowId then "WITHOUT ROWID\n" else "")).data, ?_⟩
      simp only [Bool.false_eq_true, if_false, String.data_append, List.append_assoc]
      rfl
    · refine ⟨(String.join (t._columns.map fun c => "\t\t" ++ c.toString ++ "\n")
        ++ "\tCONSTRAINTS:\n"
        ++ String.join (t._constraints.map fun c => "\t\t" ++ c.toString ++ "\n")
        ++ (if t._withoutRowId then "WITHOUT ROWID\n" else "")).data, ?_⟩
      simp only [if_true, String.data_append, List.append_assoc]
      rfl
  · unfold EndsWith
    refine ⟨("TABLE\n" ++ (if t._temp then "TEMP:\n" else "") ++ "\tname:" ++ t._name
        ++ "\n" ++ "\tCOLUMNS:\n"
        ++ String.join (t._columns.map fun c => "\t\t" ++ c.toString ++ "\n")).data, ?_⟩
    simp only [String.data_append, List.append_assoc]

/-! ## Order of the referential actions -/

/-- C5: the text of a foreign-key clause is its head (the text of the same clause
with no action, which begins with `REFERENCES `) followed by the concatenation,
in list order, of each action's `SQLiteForeignKeyAction::toString`; the actions
`[(OnUpdate, Cascade), (OnDelete, SetNull)]` give the action part
` ON UPDATE CASCADE ON DELETE SET NULL`; appending an action to the list appends
exactly that action's rendering to the text. -/
theorem foreignData_actions_in_order (fd : SQLiteForeignData)
    (a : SQLiteForeignKeyAction) :
    fd.toString =
      SQLiteForeignData.toString { fd with actions := [] }
        ++ String.join (fd.actions.map SQLiteForeignKeyAction.toString) ∧
    StartsWith (SQLiteForeignData.toString { fd with actions := [] }) "REFERENCES " ∧
    SQLiteForeignData.toString
        { fd with actions :=
            [{ action := SQLiteAction.OnUpdate, doOnAction := SQLiteDoOnAction.Cascade },
             { action := SQLiteAction.OnDelete, doOnAction := SQLiteDoOnAction.SetNull }] }
      = SQLiteForeignData.toString { fd with actions := [] }
          ++ " ON UPDATE CASCADE ON DELETE SET NULL" ∧
    SQLiteForeignData.toString { fd with actions := fd.actions ++ [a] }
      = fd.toString ++ a.toString := by
  have e : String.join [] = "" := rfl
  refine ⟨?_, ?_, ?_, ?_⟩
  · simp only [foreignData_toString_eq, List.map_nil, e, String.append_empty]
  · unfold StartsWith
    rw [foreignData_toString_eq]
    simp only [String.data_append, List.append_assoc]
    exact List.prefix_append _ _
  · simp only [foreignData_toString_eq, List.map_nil, e, String.append_empty]
    rfl
  · simp only [foreignData_toString_eq, List.map_append, List.map_cons, List.map_nil,
      join_append_singleton, String.append_assoc]

/-! ## Conflict dispositions -/

theorem prefix_before_absent {α : Type} {c : α} {p : List α} (hc : c ∉ p) :
    ∀ (a b : List α), p <+: a ++ c :: b → p <+: a := by
  induction p with
  | nil => intro a b _; exact List.nil_prefix
  | cons x p ih =>
    intro a b h
    cases a with
    | nil =>
      rw [List.nil_append, List.cons_prefix_cons] at h
      exact absurd (h.1 ▸ List.mem_cons_self x p) hc
    | cons y a =>
      rw [List.cons_append, List.cons_prefix_cons] at h
      rw [List.cons_prefix_cons]
      exact ⟨h.1, ih (fun hm => hc (List.mem_cons_of_mem x hm)) a b h.2⟩

/-- A piece that lacks the character `c` and occurs in `a ++ c :: b` occurs in
`a` or in `b`. -/
theorem infix_split_at {α : Type} {c : α} {p : List α} (hc : c ∉ p) :
    ∀ (a b : List α), p <:+: a ++ c :: b → p <:+: a ∨ p <:+: b := by
  intro a
  induction a with
  | nil =>
    intro b h
    rw [List.nil_append, List.infix_cons_iff] at h
    rcases h with h | h
    · exact Or.inl (prefix_before_absent hc [] b h).isInfix
    · exact Or.inr h
  | cons y a ih =>
    intro b h
    rw [List.cons_append, List.infix_cons_iff] at h
    rcases h with h | h
    · exact Or.inl (prefix_before_absent hc (y :: a) b h).isInfix
    · rcases ih b h with h | h
      · exact Or.inl (List.infix_cons h)
      · exact Or.inr h

/-- A piece with no comma and no leading space that occurs in a `, `-joined list
occurs in the text before the list or in one of the joined names. -/
theorem infix_intercalate_go {p : List Char} (hc : ',' ∉ p) (hs : ¬ [' '] <+: p) :
    ∀ (cs : List String) (acc : String),
      p <:+: (String.intercalate.go acc ", " cs).data →
        p <:+: acc.data ∨ ∃ c ∈ cs, p <:+: c.data := by
  intro cs
  induction cs with
  | nil => intro acc h; exact Or.inl h
  | cons c cs ih =>
    intro acc h
    have h1 : p <:+: (acc ++ ", " ++ c).data ∨ ∃ d ∈ cs, p <:+: d.data := ih _ h
    rcases h1 with h1 | ⟨d, hd, h1⟩
    · have e : (acc ++ ", " ++ c).data = acc.data ++ ',' :: (' ' :: c.data) := by
        simp only [String.data_append, List.append_assoc]
        rfl
      rw [e] at h1
      rcases infix_split_at hc _ _ h1 with h2 | h2
      · exact Or.inl h2
      · rw [List.infix_cons_iff] at h2
        rcases h2 with h2 | h2
        · rw [List.prefix_cons_iff] at h2
          rcases h2 with h2 | ⟨t, ht, _⟩
          · subst h2; exact Or.inl (List.nil_infix)
          · exact absurd (ht ▸ (⟨t, rfl⟩ : [' '] <+: ' ' :: t)) hs
        · exact Or.inr ⟨c, List.mem_cons_self c cs, h2⟩
    · exact Or.inr ⟨d, List.mem_cons_of_mem c hd, h1⟩

/-- The text `ON CONFLICT` does not occur in a `, `-joined list of names unless
it occurs in one of the names. -/
theorem onConflict_not_in_intercalate (cols : List String)
    (h : ∀ n ∈ cols, ¬ Contains n "ON CONFLICT") :
    ¬ "ON CONFLICT".data <:+: (", ".intercalate cols).data := by
  cases cols with
  | nil => decide
  | cons c cs =>
    intro hin
    have hin2 : "ON CONFLICT".data <:+: (String.intercalate.go c ", " cs).data := hin
    rcases infix_intercalate_go (by decide) (by decide) cs c hin2 with h1 | ⟨d, hd, h1⟩
    · exact h c (List.mem_cons_self c cs) h1
    · exact h d (List.mem_cons_of_mem c hd) h1

/-- The text `ON CONFLICT` does not occur in `<keyword> (<names>) ` unless it
occurs in the keyword text or in one of the names. -/
theorem onConflict_not_in_list_clause (kw : String) (cols : List String)
    (hk : ¬ "ON CONFLICT".data <:+: kw.data)
    (h : ∀ n ∈ cols, ¬ Contains n "ON CONFLICT") :
    ¬ Contains (kw ++ "(" ++ ", ".intercalate cols ++ ") ") "ON CONFLICT" := by
  intro hin
  have e : (kw ++ "(" ++ ", ".intercalate cols ++ ") ").data
      = kw.data ++ '(' :: ((", ".intercalate cols).data ++ ')' :: [' ']) := by
    simp only [String.data_append, List.append_assoc]
    rfl
  unfold Contains at hin
  rw [e] at hin
  rcases infix_split_at (by decide) _ _ hin with h1 | h1
  · exact hk h1
  · rcases infix_split_at (by decide) _ _ h1 with h2 | h2
    · exact onConflict_not_in_intercalate cols h h2
    · exact absurd h2 (by decide)

/-- C6: a PRIMARY KEY or UNIQUE constraint whose disposition is `None` renders
with no `ON CONFLICT` text, at column level and, provided no indexed column name
contains that text, at table level. -/
theorem none_disposition_no_onConflict
    (c : SQLiteColumnConstraint) (pk : SQLiteTablePrimaryKeyConstraint)
    (u : SQLiteTableUniqueConstraint)
    (hty : c._type = SQLiteColumnConstraint.Type.PrimaryKey
      ∨ c._type = SQLiteColumnConstraint.Type.Unique)
    (hc : c._onConflict = SQLiteDoOnConflict.None)
    (hpk : pk.conflict = SQLiteDoOnConflict.None)
    (hpkn : ∀ n ∈ pk.indexedColumnNames, ¬ Contains n "ON CONFLICT")
    (hu : u.conflict = SQLiteDoOnConflict.None)
    (hun : ∀ n ∈ u.indexedColumnNames, ¬ Contains n "ON CONFLICT") :
    ¬ Contains c.toString "ON CONFLICT" ∧
    ¬ Contains pk.toString "ON CONFLICT" ∧
    ¬ Contains u.toString "ON CONFLICT" := by
  refine ⟨?_, ?_, ?_⟩
  · obtain ⟨ty, ai, oc⟩ := c
    simp only at hty hc
    subst hc
    rcases hty with h | h <;> subst h <;> cases ai <;> decide
  · rw [tablePrimaryKey_toString_eq, hpk]
    simp only [ne_eq, not_true_eq_false, if_false, String.append_empty]
    exact onConflict_not_in_list_clause " PRIMARY KEY " pk.indexedColumnNames
      (by decide) hpkn
  · rw [tableUnique_toString_eq, hu]
    simp only [ne_eq, not_true_eq_false, if_false, String.append_empty]
    exact onConflict_not_in_list_clause " UNIQUE " u.indexedColumnNames
      (by decide) hun

theorem none_disposition_no_onConflict_witness :
    ¬ Contains
        (SQLiteColumnConstraint.toString
          { _type := SQLiteColumnConstraint.Type.PrimaryKey, _isAutoincrement := true,
            _onConflict := SQLiteDoOnConflict.None }) "ON CONFLICT" ∧
    ¬ Contains
        (SQLiteTablePrimaryKeyConstraint.toString
          { indexedColumnNames := ["a", "b"], conflict := SQLiteDoOnConflict.None })
        "ON CONFLICT" ∧
    ¬ Contains
        (SQLiteTableUniqueConstraint.toString
          { indexedColumnNames := ["a", "b"], conflict := SQLiteDoOnConflict.None })
        "ON CONFLICT" :=
  none_disposition_no_onConflict
    { _type := SQLiteColumnConstraint.Type.PrimaryKey, _isAutoincrement := true,
      _onConflict := SQLiteDoOnConflict.None }
    { indexedColumnNames := ["a", "b"], conflict := SQLiteDoOnConflict.None }
    { indexedColumnNames := ["a", "b"], conflict := SQLiteDoOnConflict.None }
    (Or.inl rfl) rfl rfl (by decide) rfl (by decide)

/-- C7 fails as stated at table level: the PRIMARY KEY constraint on column `a`
with disposition `Rollback` renders with two spaces between `)` and
`ON CONFLICT`, not as the clause ` PRIMARY KEY (a)` followed immediately by
` ON CONFLICT ROLLBACK`. -/
theorem tablePrimaryKey_conflict_two_spaces :
    SQLiteTablePrimaryKeyConstraint.toString
        { indexedColumnNames := ["a"], conflict := SQLiteDoOnConflict.Rollback }
      = " PRIMARY KEY (a)  ON CONFLICT ROLLBACK" ∧
    SQLiteTablePrimaryKeyConstraint.toString
        { indexedColumnNames := ["a"], conflict := SQLiteDoOnConflict.Rollback }
      ≠ " PRIMARY KEY (" ++ ", ".intercalate ["a"] ++ ")"
          ++ " ON CONFLICT " ++ conflictToString SQLiteDoOnConflict.Rollback := by
  decide

/-- C7 as amended: with a disposition other than `None`, a column-level
PRIMARY KEY or UNIQUE constraint renders as its keyword phrase followed
immediately by ` ON CONFLICT <KEYWORD>`; a table-level one renders as its
keyword phrase and parenthesised column list, a space that closes the clause,
and then ` ON CONFLICT <KEYWORD>` (two spaces between `)` and `ON`). Nothing
follows the keyword. -/
theorem conflict_clause_follows
    (c : SQLiteColumnConstraint) (pk : SQLiteTablePrimaryKeyConstraint)
    (u : SQLiteTableUniqueConstraint)
    (hc : c._onConflict ≠ SQLiteDoOnConflict.None)
    (hpk : pk.conflict ≠ SQLiteDoOnConflict.None)
    (hu : u.conflict ≠ SQLiteDoOnConflict.None) :
    (c._type = SQLiteColumnConstraint.Type.PrimaryKey →
      c.toString =
        " PRIMARY KEY" ++ (if c._isAutoincrement then " AUTOINCREMENT" else "")
          ++ " ON CONFLICT " ++ conflictToString c._onConflict) ∧
    (c._type = SQLiteColumnConstraint.Type.Unique →
      c.toString = " UNIQUE" ++ " ON CONFLICT " ++ conflictToString c._onConflict) ∧
    pk.toString =
      " PRIMARY KEY (" ++ ", ".intercalate pk.indexedColumnNames ++ ") "
        ++ " ON CONFLICT " ++ conflictToString pk.conflict ∧
    u.toString =
      " UNIQUE (" ++ ", ".intercalate u.indexedColumnNames ++ ") "
        ++ " ON CONFLICT " ++ conflictToString u.conflict := by
  refine ⟨?_, ?_, ?_, ?_⟩
  · intro hty
    obtain ⟨ty, ai, oc⟩ := c
    simp only at hty hc
    subst hty
    unfold SQLiteColumnConstraint.toString
    simp only [ne_eq, hc, not_false_eq_true, if_true, String.empty_append]
    cases ai <;> simp only [Bool.false_eq_true, if_false, if_true, String.append_empty]
  · intro hty
    obtain ⟨ty, ai, oc⟩ := c
    simp only at hty hc
    subst hty
    unfold SQLiteColumnConstraint.toString
    simp only [ne_eq, hc, not_false_eq_true, if_true, String.empty_append]
  · rw [tablePrimaryKey_toString_eq, if_pos hpk]
    simp only [String.append_assoc]
  · rw [tableUnique_toString_eq, if_pos hu]
    simp only [String.append_assoc]

theorem conflict_clause_follows_witness :
    SQLiteColumnConstraint.toString
        { _type := SQLiteColumnConstraint.Type.PrimaryKey, _isAutoincrement := true,
          _onConflict := SQLiteDoOnConflict.Replace }
      = " PRIMARY KEY AUTOINCREMENT ON CONFLICT REPLACE" ∧
    SQLiteTablePrimaryKeyConstraint.toString
        { indexedColumnNames := ["a", "b"], conflict := SQLiteDoOnConflict.Abort }
      = " PRIMARY KEY (a, b)  ON CONFLICT ABORT" ∧
    SQLiteTableUniqueConstraint.toString
        { indexedColumnNames := ["a", "b"], conflict := SQLiteDoOnConflict.Ignore }
      = " UNIQUE (a, b)  ON CONFLICT IGNORE" :=
  have h := conflict_clause_follows
    { _type := SQLiteColumnConstraint.Type.PrimaryKey, _isAutoincrement := true,
      _onConflict := SQLiteDoOnConflict.Replace }
    { indexedColumnNames := ["a", "b"], conflict := SQLiteDoOnConflict.Abort }
    { indexedColumnNames := ["a", "b"], conflict := SQLiteDoOnConflict.Ignore }
    (by decide) (by decide) (by decide)
  ⟨(h.1 rfl).trans (by decide), h.2.2.1.trans (by decide), h.2.2.2.trans (by decide)⟩

/-- C8: `conflictToString` maps `None` to the empty text and the five other
dispositions to ROLLBACK, ABORT, FAIL, IGNORE, REPLACE; its result is empty
exactly for `None`, and it is injective. -/
theorem conflictToString_one_to_one :
    conflictToString SQLiteDoOnConflict.None = "" ∧
    conflictToString SQLiteDoOnConflict.Rollback = "ROLLBACK" ∧
    conflictToString SQLiteDoOnConflict.Abort = "ABORT" ∧
    conflictToString SQLiteDoOnConflict.Fail = "FAIL" ∧
    conflictToString SQLiteDoOnConflict.Ignore = "IGNORE" ∧
    conflictToString SQLiteDoOnConflict.Replace = "REPLACE" ∧
    (∀ d, conflictToString d = "" ↔ d = SQLiteDoOnConflict.None) ∧
    Function.Injective conflictToString := by
  refine ⟨rfl, rfl, rfl, rfl, rfl, rfl, ?_, ?_⟩
  · intro d
    cases d <;> decide
  · intro a b h
    cases a <;> cases b <;> first | rfl | exact absurd h (by decide)

/-! ## Referential actions -/

/-- C9: for trigger `Match` the text is ` MATCH` whatever the disposition; for
`OnDelete` and `OnUpdate` it is ` ON DELETE` / ` ON UPDATE`, a space, and the
keyword of the disposition; two actions whose triggers are not `Match` and whose
texts are equal are the same action. -/
theorem foreignKeyAction_toString_spec :
    (∀ d, SQLiteForeignKeyAction.toString ⟨SQLiteAction.Match, d⟩ = " MATCH") ∧
    (SQLiteForeignKeyAction.toString ⟨SQLiteAction.OnDelete, SQLiteDoOnAction.NoAction⟩
        = " ON DELETE" ++ " " ++ "NO ACTION" ∧
     SQLiteForeignKeyAction.toString ⟨SQLiteAction.OnDelete, SQLiteDoOnAction.SetNull⟩
        = " ON DELETE" ++ " " ++ "SET NULL" ∧
     SQLiteForeignKeyAction.toString ⟨SQLiteAction.OnDelete, SQLiteDoOnAction.SetDefault⟩
        = " ON DELETE" ++ " " ++ "SET DEFAULT" ∧
     SQLiteForeignKeyAction.toString ⟨SQLiteAction.OnDelete, SQLiteDoOnAction.Cascade⟩
        = " ON DELETE" ++ " " ++ "CASCADE" ∧
     SQLiteForeignKeyAction.toString ⟨SQLiteAction.OnDelete, SQLiteDoOnAction.Restrict⟩
        = " ON DELETE" ++ " " ++ "RESTRICT") ∧
    (SQLiteForeignKeyAction.toString ⟨SQLiteAction.OnUpdate, SQLiteDoOnAction.NoAction⟩
        = " ON UPDATE" ++ " " ++ "NO ACTION" ∧
     SQLiteForeignKeyAction.toString ⟨SQLiteAction.OnUpdate, SQLiteDoOnAction.SetNull⟩
        = " ON UPDATE" ++ " " ++ "SET NULL" ∧
     SQLiteForeignKeyAction.toString ⟨SQLiteAction.OnUpdate, SQLiteDoOnAction.SetDefault⟩
        = " ON UPDATE" ++ " " ++ "SET DEFAULT" ∧
     SQLiteForeignKeyAction.toString ⟨SQLiteAction.OnUpdate, SQLiteDoOnAction.Cascade⟩
        = " ON UPDATE" ++ " " ++ "CASCADE" ∧
     SQLiteForeignKeyAction.toString ⟨SQLiteAction.OnUpdate, SQLiteDoOnAction.Restrict⟩
        = " ON UPDATE" ++ " " ++ "RESTRICT") ∧
    (∀ a b : SQLiteForeignKeyAction,
      a.action ≠ SQLiteAction.Match → b.action ≠ SQLiteAction.Match →
        a.toString = b.toString → a = b) := by
  refine ⟨?_, ⟨rfl, rfl, rfl, rfl, rfl⟩, ⟨rfl, rfl, rfl, rfl, rfl⟩, ?_⟩
  · intro d
    cases d <;> rfl
  · rintro ⟨ta, da⟩ ⟨tb, db⟩ ha hb h
    cases ta <;> cases tb <;> cases da <;> cases db <;>
      first
        | rfl
        | exact absurd rfl ha
        | exact absurd rfl hb
        | exact absurd h (by decide)

theorem foreignKeyAction_toString_spec_witness :
    SQLiteForeignKeyAction.toString ⟨SQLiteAction.Match, SQLiteDoOnAction.Cascade⟩
      = " MATCH" ∧
    ((⟨SQLiteAction.OnDelete, SQLiteDoOnAction.Cascade⟩ : SQLiteForeignKeyAction)
      = ⟨SQLiteAction.OnDelete, SQLiteDoOnAction.Cascade⟩) :=
  ⟨foreignKeyAction_toString_spec.1 SQLiteDoOnAction.Cascade,
   foreignKeyAction_toString_spec.2.2.2
     ⟨SQLiteAction.OnDelete, SQLiteDoOnAction.Cascade⟩
     ⟨SQLiteAction.OnDelete, SQLiteDoOnAction.Cascade⟩ (by decide) (by decide) rfl⟩

/-! ## The DEFAULT constraint -/

/-- C10 fails as stated: the Default constraint with disposition `Replace` and
the `String` literal `abc` renders ` DEFAULT ON CONFLICT REPLACE 'abc'`; the
clause stands between the keyword ` DEFAULT` and the literal. -/
theorem default_with_disposition_renders_clause :
    SQLiteDefaultColumnConstraint.toString
        { _type := SQLiteColumnConstraint.Type.Default, _isAutoincrement := false,
          _onConflict := SQLiteDoOnConflict.Replace,
          defaultValue := { type := SQLiteLiteralValueType.String, value := "abc" } }
      = " DEFAULT ON CONFLICT REPLACE 'abc'" ∧
    SQLiteDefaultColumnConstraint.toString
        { _type := SQLiteColumnConstraint.Type.Default, _isAutoincrement := false,
          _onConflict := SQLiteDoOnConflict.Replace,
          defaultValue := { type := SQLiteLiteralValueType.String, value := "abc" } }
      ≠ " DEFAULT" ++ " " ++ "'" ++ "abc" ++ "'" := by
  decide

/-- C10 as amended: a Default column constraint renders as ` DEFAULT`, then
` ON CONFLICT <KEYWORD>` when its inherited disposition is not `None`, then one
space, and then the literal: the value between single quotes when the literal's
type is `String`, the raw value text otherwise. -/
theorem defaultConstraint_toString (c : SQLiteDefaultColumnConstraint)
    (hty : c._type = SQLiteColumnConstraint.Type.Default) :
    c.toString =
      " DEFAULT"
        ++ (if c._onConflict ≠ SQLiteDoOnConflict.None then
              " ON CONFLICT " ++ conflictToString c._onConflict
            else "")
        ++ " "
        ++ (if c.defaultValue.type = SQLiteLiteralValueType.String then
              "'" ++ c.defaultValue.value ++ "'"
            else c.defaultValue.value) := by
  unfold SQLiteDefaultColumnConstraint.toString SQLiteColumnConstraint.toString
  simp only [hty, String.empty_append]
  by_cases h1 : c._onConflict = SQLiteDoOnConflict.None <;>
    by_cases h2 : c.defaultValue.type = SQLiteLiteralValueType.String <;>
      simp only [ne_eq, h1, h2, not_true_eq_false, not_false_eq_true, if_true, if_false,
        String.append_assoc, String.append_empty, String.empty_append]

theorem defaultConstraint_toString_witness :
    SQLiteDefaultColumnConstraint.toString
        { _type := SQLiteColumnConstraint.Type.Default, _isAutoincrement := false,
          _onConflict := SQLiteDoOnConflict.None,
          defaultValue := { type := SQLiteLiteralValueType.String, value := "abc" } }
      = " DEFAULT 'abc'" ∧
    SQLiteDefaultColumnConstraint.toString
        { _type := SQLiteColumnConstraint.Type.Default, _isAutoincrement := false,
          _onConflict := SQLiteDoOnConflict.None,
          defaultValue := { type := SQLiteLiteralValueType.Integer, value := "42" } }
      = " DEFAULT 42" ∧
    SQLiteDefaultColumnConstraint.toString
        { _type := SQLiteColumnConstraint.Type.Default, _isAutoincrement := false,
          _onConflict := SQLiteDoOnConflict.Abort,
          defaultValue := { type := SQLiteLiteralValueType.Integer, value := "42" } }
      = " DEFAULT ON CONFLICT ABORT 42" :=
  ⟨(defaultConstraint_toString
      { _type := SQLiteColumnConstraint.Type.Default, _isAutoincrement := false,
        _onConflict := SQLiteDoOnConflict.None,
        defaultValue := { type := SQLiteLiteralValueType.String, value := "abc" } }
      rfl).trans (by decide),
   (defaultConstraint_toString
      { _type := SQLiteColumnConstraint.Type.Default, _isAutoincrement := false,
        _onConflict := SQLiteDoOnConflict.None,
        defaultValue := { type := SQLiteLiteralValueType.Integer, value := "42" } }
      rfl).trans (by decide),
   (defaultConstraint_toString
      { _type := SQLiteColumnConstraint.Type.Default, _isAutoincrement := false,
        _onConflict := SQLiteDoOnConflict.Abort,
        defaultValue := { type := SQLiteLiteralValueType.Integer, value := "42" } }
      rfl).trans (by decide)⟩

/-! ## The autoincrement flag -/

/-- C11: the base renderer writes ` AUTOINCREMENT` exactly when the variant is
PrimaryKey and the autoincrement flag is set, and then the text begins
` PRIMARY KEY AUTOINCREMENT`; for every other variant the text is the same
whether the flag is set or clear. -/
theorem autoincrement_only_on_primaryKey (c : SQLiteColumnConstraint) :
    (Contains c.toString " AUTOINCREMENT" ↔
      (c._type = SQLiteColumnConstraint.Type.PrimaryKey ∧ c._isAutoincrement = true)) ∧
    (c._type = SQLiteColumnConstraint.Type.PrimaryKey → c._isAutoincrement = true →
      StartsWith c.toString " PRIMARY KEY AUTOINCREMENT") ∧
    (c._type ≠ SQLiteColumnConstraint.Type.PrimaryKey →
      SQLiteColumnConstraint.toString { c with _isAutoincrement := true }
        = SQLiteColumnConstraint.toString { c with _isAutoincrement := false }) := by
  obtain ⟨ty, ai, oc⟩ := c
  cases ty <;> cases ai <;> cases oc <;> decide

theorem autoincrement_only_on_primaryKey_witness :
    StartsWith
        (SQLiteColumnConstraint.toString
          { _type := SQLiteColumnConstraint.Type.PrimaryKey, _isAutoincrement := true,
            _onConflict := SQLiteDoOnConflict.Abort })
        " PRIMARY KEY AUTOINCREMENT" ∧
    SQLiteColumnConstraint.toString
        { _type := SQLiteColumnConstraint.Type.Unique, _isAutoincrement := true,
          _onConflict := SQLiteDoOnConflict.Abort }
      = SQLiteColumnConstraint.toString
        { _type := SQLiteColumnConstraint.Type.Unique, _isAutoincrement := false,
          _onConflict := SQLiteDoOnConflict.Abort } :=
  ⟨(autoincrement_only_on_primaryKey
      { _type := SQLiteColumnConstraint.Type.PrimaryKey, _isAutoincrement := true,
        _onConflict := SQLiteDoOnConflict.Abort }).2.1 rfl rfl,
   (autoincrement_only_on_primaryKey
      { _type := SQLiteColumnConstraint.Type.Unique, _isAutoincrement := true,
        _onConflict := SQLiteDoOnConflict.Abort }).2.2 (by decide)⟩

/-! ## The disposition of the other variants -/

/-- C12 fails as stated: the renderer does not test the variant. A NotNull
constraint whose disposition is `Replace` is rendered with the clause
` ON CONFLICT REPLACE`. -/
theorem notNull_disposition_is_rendered :
    SQLiteColumnConstraint.toString
        { _type := SQLiteColumnConstraint.Type.NotNull, _isAutoincrement := false,
          _onConflict := SQLiteDoOnConflict.Replace }
      = " NOT NULL ON CONFLICT REPLACE" ∧
    Contains
        (SQLiteColumnConstraint.toString
          { _type := SQLiteColumnConstraint.Type.NotNull, _isAutoincrement := false,
            _onConflict := SQLiteDoOnConflict.Replace })
        "ON CONFLICT" := by
  decide

/-- C12 as amended: for a constraint whose variant is not PrimaryKey or Unique,
the constructor sets the disposition to `None` and the text of the constraint as
constructed has no `ON CONFLICT`; in general the text rendered by the base
renderer contains `ON CONFLICT` exactly when the disposition is not `None`. -/
theorem onConflict_clause_iff_disposition (c : SQLiteColumnConstraint)
    (h1 : c._type ≠ SQLiteColumnConstraint.Type.PrimaryKey)
    (h2 : c._type ≠ SQLiteColumnConstraint.Type.Unique) :
    (SQLiteColumnConstraint.new c._type)._onConflict = SQLiteDoOnConflict.None ∧
    ¬ Contains (SQLiteColumnConstraint.new c._type).toString "ON CONFLICT" ∧
    (Contains c.toString "ON CONFLICT" ↔ c._onConflict ≠ SQLiteDoOnConflict.None) := by
  obtain ⟨ty, ai, oc⟩ := c
  cases ty <;> cases ai <;> cases oc <;>
    first
      | exact absurd rfl h1
      | exact absurd rfl h2
      | decide

theorem onConflict_clause_iff_disposition_witness :
    (SQLiteColumnConstraint.new SQLiteColumnConstraint.Type.NotNull)._onConflict
      = SQLiteDoOnConflict.None ∧
    ¬ Contains
        (SQLiteColumnConstraint.new SQLiteColumnConstraint.Type.NotNull).toString
        "ON CONFLICT" :=
  have h := onConflict_clause_iff_disposition
    { _type := SQLiteColumnConstraint.Type.NotNull, _isAutoincrement := false,
      _onConflict := SQLiteDoOnConflict.None }
    (by decide) (by decide)
  ⟨h.1, h.2.1⟩

/-! ## Column lists of the table-level constraints -/

theorem startsWith_append (a b : String) : StartsWith (a ++ b) a := by
  unfold StartsWith
  rw [String.data_append]
  exact List.prefix_append _ _

theorem startsWith_of_eq {s pre : String} (rest : String) (h : s = pre ++ rest) :
    StartsWith s pre := by
  rw [h]
  exact startsWith_append _ _

/-- Closed form of `SQLiteTableForeignKeyConstraint::toString`. -/
theorem tableForeignKey_toString_eq (c : SQLiteTableForeignKeyConstraint) :
    c.toString =
      " FOREIGN KEY (" ++ ", ".intercalate c.columnNames ++ ") "
        ++ (match c.foreignData with
            | some fd => fd.toString
            | none => "") := by
  unfold SQLiteTableForeignKeyConstraint.toString
  simp only [joinStep_foldl, String.empty_append]
  cases c.foreignData <;> simp only [String.append_assoc, String.append_empty]

/-- C13: each of the three table-level renderers writes its column names in
stored order between `(` and `)`, with `, ` between consecutive names and
nothing before the first or after the last; the separator is the same in the
three. -/
theorem table_constraint_column_lists (pk : SQLiteTablePrimaryKeyConstraint)
    (u : SQLiteTableUniqueConstraint) (fk : SQLiteTableForeignKeyConstraint) :
    StartsWith pk.toString
      (" PRIMARY KEY (" ++ ", ".intercalate pk.indexedColumnNames ++ ")") ∧
    StartsWith u.toString
      (" UNIQUE (" ++ ", ".intercalate u.indexedColumnNames ++ ")") ∧
    StartsWith fk.toString
      (" FOREIGN KEY (" ++ ", ".intercalate fk.columnNames ++ ")") ∧
    SQLiteTablePrimaryKeyConstraint.toString
        { indexedColumnNames := ["a", "b", "c"], conflict := SQLiteDoOnConflict.None }
      = " PRIMARY KEY (a, b, c) " ∧
    SQLiteTableUniqueConstraint.toString
        { indexedColumnNames := ["a", "b", "c"], conflict := SQLiteDoOnConflict.None }
      = " UNIQUE (a, b, c) " ∧
    SQLiteTableForeignKeyConstraint.toString
        { columnNames := ["a", "b", "c"], foreignData := none }
      = " FOREIGN KEY (a, b, c) " := by
  refine ⟨?_, ?_, ?_, by decide, by decide, by decide⟩
  · have e : pk.toString =
        (" PRIMARY KEY (" ++ ", ".intercalate pk.indexedColumnNames ++ ")")
          ++ (" " ++ (if pk.conflict ≠ SQLiteDoOnConflict.None then
                " ON CONFLICT " ++ conflictToString pk.conflict else "")) := by
      rw [tablePrimaryKey_toString_eq]
      simp only [String.append_assoc]
      rfl
    rw [e]
    exact startsWith_append _ _
  · have e : u.toString =
        (" UNIQUE (" ++ ", ".intercalate u.indexedColumnNames ++ ")")
          ++ (" " ++ (if u.conflict ≠ SQLiteDoOnConflict.None then
                " ON CONFLICT " ++ conflictToString u.conflict else "")) := by
      rw [tableUnique_toString_eq]
      simp only [String.append_assoc]
      rfl
    rw [e]
    exact startsWith_append _ _
  · have e : fk.toString =
        (" FOREIGN KEY (" ++ ", ".intercalate fk.columnNames ++ ")")
          ++ (" " ++ (match fk.foreignData with
                | some fd => fd.toString
                | none => "")) := by
      rw [tableForeignKey_toString_eq]
      simp only [String.append_assoc]
      rfl
    rw [e]
    exact startsWith_append _ _

/-! ## Identifiers -/

/-- Closed form of `SQLiteColumn::toString`. -/
theorem column_toString_eq (col : SQLiteColumn) :
    col.toString =
      "name: " ++ col._name ++ " type: " ++ col._type ++ " constraints:"
        ++ String.join (col._constraints.map fun c => " " ++ c.toString) := by
  unfold SQLiteColumn.toString
  simp only [String.append_assoc, foldl_shift, String.empty_append]

/-- C14 fails as stated: a referenced table named `my table` and a referenced
column named `order` are written as bare text, and so is a column named
`my col`. -/
theorem identifiers_are_never_quoted :
    SQLiteForeignData.toString
        { foreignTableName := "my table", foreignColumnNames := ["order"], actions := [] }
      = "REFERENCES my table (order) " ∧
    SQLiteColumn.toString { _name := "my col", _type := "TEXT", _constraints := [] }
      = "name: my col type: TEXT constraints:" := by
  decide

theorem intercalate_go_empty (cs : List String) (acc : String) :
    String.intercalate.go acc "" cs = acc ++ String.join cs := by
  induction cs generalizing acc with
  | nil => exact (String.append_empty acc).symm
  | cons c cs ih =>
    show String.intercalate.go (acc ++ "" ++ c) "" cs = acc ++ String.join (c :: cs)
    rw [ih, join_cons, String.append_empty, String.append_assoc]

/-- Joining with the empty separator is plain concatenation. -/
theorem intercalate_empty (cs : List String) : "".intercalate cs = String.join cs := by
  cases cs with
  | nil => rfl
  | cons c cs =>
    show String.intercalate.go c "" cs = String.join (c :: cs)
    rw [intercalate_go_empty, join_cons]

/-- C14 as amended: every identifier is written verbatim, whatever characters
it holds. In a foreign-key clause the referenced table name follows
`REFERENCES ` and the referenced column names stand bare, in stored order,
between the parentheses, with one fixed text between consecutive names; a
column writes its name after `name: ` and its type after ` type: `; a table
writes its name after `name:`; the table-level constraints write their column
names bare between the parentheses. -/
theorem identifiers_verbatim (col : SQLiteColumn) (t : SQLiteTable)
    (pk : SQLiteTablePrimaryKeyConstraint) (u : SQLiteTableUniqueConstraint)
    (fk : SQLiteTableForeignKeyConstraint) :
    (∃ sep : String, ∀ fd : SQLiteForeignData,
      fd.toString =
        "REFERENCES " ++ fd.foreignTableName ++ " ("
          ++ sep.intercalate fd.foreignColumnNames ++ ") "
          ++ String.join (fd.actions.map SQLiteForeignKeyAction.toString)) ∧
    StartsWith col.toString
      ("name: " ++ col._name ++ " type: " ++ col._type ++ " constraints:") ∧
    StartsWith t.toString
      ("TABLE\n" ++ (if t._temp then "TEMP:\n" else "") ++ "\tname:" ++ t._name ++ "\n") ∧
    StartsWith pk.toString
      (" PRIMARY KEY (" ++ ", ".intercalate pk.indexedColumnNames ++ ")") ∧
    StartsWith u.toString
      (" UNIQUE (" ++ ", ".intercalate u.indexedColumnNames ++ ")") ∧
    StartsWith fk.toString
      (" FOREIGN KEY (" ++ ", ".intercalate fk.columnNames ++ ")") := by
  refine ⟨⟨"", ?_⟩, ?_, ?_, ?_, ?_, ?_⟩
  · intro fd
    rw [foreignData_toString_eq, intercalate_empty]
  · rw [column_toString_eq]
    exact startsWith_append _ _
  · refine startsWith_of_eq
      ("\tCOLUMNS:\n"
        ++ String.join (t._columns.map fun c => "\t\t" ++ c.toString ++ "\n")
        ++ "\tCONSTRAINTS:\n"
        ++ String.join (t._constraints.map fun c => "\t\t" ++ c.toString ++ "\n")
        ++ (if t._withoutRowId then "WITHOUT ROWID\n" else "")) ?_
    rw [table_toString_eq]
    cases t._temp <;>
      simp only [Bool.false_eq_true, if_false, if_true, String.append_assoc,
        String.append_empty, String.empty_append]
  · refine startsWith_of_eq
      (" " ++ (if pk.conflict ≠ SQLiteDoOnConflict.None then
        " ON CONFLICT " ++ conflictToString pk.conflict else "")) ?_
    rw [tablePrimaryKey_toString_eq]
    simp only [String.append_assoc]
    rfl
  · refine startsWith_of_eq
      (" " ++ (if u.conflict ≠ SQLiteDoOnConflict.None then
        " ON CONFLICT " ++ conflictToString u.conflict else "")) ?_
    rw [tableUnique_toString_eq]
    simp only [String.append_assoc]
    rfl
  · refine startsWith_of_eq
      (" " ++ (match fk.foreignData with
        | some fd => fd.toString
        | none => "")) ?_
    rw [tableForeignKey_toString_eq]
    simp only [String.append_assoc]
    rfl

/-! ## Quotes in a string default -/

/-- The base renderer writes no single quote. -/
theorem base_toString_no_quote (b : SQLiteColumnConstraint) :
    List.count singleQuote b.toString.data = 0 := by
  obtain ⟨ty, ai, oc⟩ := b
  cases ty <;> cases ai <;> cases oc <;> decide

/-- C15: for a `String` literal the renderer writes the base text, a space, a
single quote, the value unchanged, and a single quote; the base text has no
single quote, so the text has exactly two more single quotes than the value. -/
theorem default_string_not_escaped (c : SQLiteDefaultColumnConstraint)
    (hs : c.defaultValue.type = SQLiteLiteralValueType.String) :
    c.toString =
      c.toSQLiteColumnConstraint.toString ++ " " ++ "'" ++ c.defaultValue.value ++ "'" ∧
    List.count singleQuote c.toSQLiteColumnConstraint.toString.data = 0 ∧
    List.count singleQuote c.toString.data
      = List.count singleQuote c.defaultValue.value.data + 2 := by
  have e : c.toString =
      c.toSQLiteColumnConstraint.toString ++ " " ++ "'" ++ c.defaultValue.value ++ "'" := by
    unfold SQLiteDefaultColumnConstraint.toString
    simp only [hs, if_true, String.empty_append]
  refine ⟨e, base_toString_no_quote _, ?_⟩
  have q : List.count singleQuote "'".data = 1 := by decide
  have sp : List.count singleQuote " ".data = 0 := by decide
  rw [e]
  simp only [String.data_append, List.count_append, base_toString_no_quote, q, sp]
  omega

theorem default_string_not_escaped_witness :
    SQLiteDefaultColumnConstraint.toString
        { _type := SQLiteColumnConstraint.Type.Default, _isAutoincrement := false,
          _onConflict := SQLiteDoOnConflict.None,
          defaultValue := { type := SQLiteLiteralValueType.String, value := "it's" } }
      = " DEFAULT 'it's'" ∧
    List.count singleQuote
        (SQLiteDefaultColumnConstraint.toString
          { _type := SQLiteColumnConstraint.Type.Default, _isAutoincrement := false,
            _onConflict := SQLiteDoOnConflict.None,
            defaultValue := { type := SQLiteLiteralValueType.String, value := "it's" } }).data
      = 3 :=
  have h := default_string_not_escaped
    { _type := SQLiteColumnConstraint.Type.Default, _isAutoincrement := false,
      _onConflict := SQLiteDoOnConflict.None,
      defaultValue := { type := SQLiteLiteralValueType.String, value := "it's" } } rfl
  ⟨h.1.trans (by decide), h.2.2.trans (by decide)⟩

/-! ## The round trip -/

/-- The text of every table definition starts with `TABLE`, not with CREATE. -/
theorem table_toString_not_create (t : SQLiteTable) :
    beginsWithCreate t.toString = false := by
  have e : ∀ rest : String, beginsWithCreate ("TABLE\n" ++ rest) = false := by
    intro rest
    have d : ("TABLE\n" ++ rest).data
        = 'T' :: 'A' :: 'B' :: 'L' :: 'E' :: '\n' :: rest.data := rfl
    have w : Char.isWhitespace 'T' = false := by decide
    unfold beginsWithCreate
    rw [d, List.dropWhile_cons, w]
    simp only [Bool.false_eq_true, if_false, List.take_succ_cons, List.take_zero,
      List.map_cons, List.map_nil]
    decide
  rw [table_toString_eq]
  simp only [String.append_assoc]
  exact e _

set_option maxRecDepth 100000 in
/-- C16 fails as stated: no parser in the sense of the spec returns the example
model from the text that `SQLiteTable::toString` renders for it. -/
theorem usersTable_not_reparsed :
    ¬ ∃ P : SpecParser, P.parse usersTable.toString = some usersTable := by
  rintro ⟨P, h⟩
  have h2 := P.create_first _ _ h
  exact absurd h2 (by decide)

/-- C16 as amended: the text that `SQLiteTable::toString` renders is a dump that
starts with `TABLE`; every parser in the sense of the spec fails on it, for
every table definition. -/
theorem table_toString_never_reparsed (P : SpecParser) (t : SQLiteTable) :
    beginsWithCreate t.toString = false ∧ P.parse t.toString = none := by
  refine ⟨table_toString_not_create t, ?_⟩
  cases h : P.parse t.toString with
  | none => rfl
  | some r =>
    have h2 := P.create_first _ _ h
    rw [table_toString_not_create] at h2
    exact Bool.noConfusion h2

theorem table_toString_never_reparsed_witness :
    beginsWithCreate usersTable.toString = false ∧
    headOnlyParser.parse usersTable.toString = none :=
  table_toString_never_reparsed headOnlyParser usersTable

/-! ## Foreign-key constraints with and without a clause -/

/-- C17, evaluated on the column constraint built by the constructor for variant
ForeignKey, with the clause that references `users (id)` and has the action
(OnDelete, Cascade): the text is
` FOREIGN KEYREFERENCES users (id)  ON DELETE CASCADE`, the keyword `REFERENCES`
directly after the `Y` of `KEY`; and so it is for every clause. -/
theorem columnForeignKey_runs_into_references :
    SQLiteForeignKeyColumnConstraint.toString
        { toSQLiteColumnConstraint :=
            SQLiteColumnConstraint.new SQLiteColumnConstraint.Type.ForeignKey,
          foreignData := some
            { foreignTableName := "users", foreignColumnNames := ["id"],
              actions := [{ action := SQLiteAction.OnDelete,
                            doOnAction := SQLiteDoOnAction.Cascade }] } }
      = " FOREIGN KEYREFERENCES users (id)  ON DELETE CASCADE" ∧
    (∀ fd : SQLiteForeignData,
      StartsWith
        (SQLiteForeignKeyColumnConstraint.toString
          { toSQLiteColumnConstraint :=
              SQLiteColumnConstraint.new SQLiteColumnConstraint.Type.ForeignKey,
            foreignData := some fd })
        " FOREIGN KEYREFERENCES ") := by
  refine ⟨by decide, ?_⟩
  intro fd
  refine startsWith_of_eq
    (fd.foreignTableName ++ " (" ++ String.join fd.foreignColumnNames ++ ") "
      ++ String.join (fd.actions.map SQLiteForeignKeyAction.toString)) ?_
  have b : SQLiteColumnConstraint.toString
      (SQLiteColumnConstraint.new SQLiteColumnConstraint.Type.ForeignKey)
        = " FOREIGN KEY" := by decide
  unfold SQLiteForeignKeyColumnConstraint.toString
  simp only [b, foreignData_toString_eq, String.append_assoc, String.empty_append]
  rfl

/-- C18: without a foreign-key clause the column-level renderer returns the base
text and the table-level renderer returns ` FOREIGN KEY (<cols>) ` with nothing
after it. -/
theorem foreignKey_without_clause (b : SQLiteColumnConstraint) (cols : List String) :
    SQLiteForeignKeyColumnConstraint.toString
        { toSQLiteColumnConstraint := b, foreignData := none }
      = b.toString ∧
    SQLiteTableForeignKeyConstraint.toString { columnNames := cols, foreignData := none }
      = " FOREIGN KEY (" ++ ", ".intercalate cols ++ ") " := by
  constructor
  · unfold SQLiteForeignKeyColumnConstraint.toString
    simp only [String.empty_append]
  · rw [tableForeignKey_toString_eq]
    simp only [String.append_empty]

/-! ## Order of columns and constraints -/

/-- C19: the text of a table is its heading, then one line `\t\t<column>\n` per
column in list order, then `\tCONSTRAINTS:\n`, then one line
`\t\t<constraint>\n` per table constraint in list order, then the without-row-id
line if the flag is set; the text of a column is its name and type followed by
its constraints in list order, each after a space. -/
theorem table_and_column_in_stored_order (t : SQLiteTable) (col : SQLiteColumn) :
    t.toString =
      "TABLE\n" ++ (if t._temp then "TEMP:\n" else "") ++ "\tname:" ++ t._name ++ "\n"
        ++ "\tCOLUMNS:\n"
        ++ String.join (t._columns.map fun c => "\t\t" ++ c.toString ++ "\n")
        ++ "\tCONSTRAINTS:\n"
        ++ String.join (t._constraints.map fun c => "\t\t" ++ c.toString ++ "\n")
        ++ (if t._withoutRowId then "WITHOUT ROWID\n" else "") ∧
    col.toString =
      "name: " ++ col._name ++ " type: " ++ col._type ++ " constraints:"
        ++ String.join (col._constraints.map fun c => " " ++ c.toString) :=
  ⟨table_toString_eq t, column_toString_eq col⟩

end meow.utils.sql_parser
